import Mathlib

/-
Verification of the JNIHelper static-call dispatcher
(src/_android/calls/StaticCaller.hpp) against its specification.

The header defines, inside namespace `jh`:
  * a family `StaticCaller<ReturnType, ArgumentTypes...>` whose primary
    template forwards to `CallStaticObjectMethod` and whose six explicit
    specializations (void, jboolean, jint, jlong, jfloat, jdouble) forward
    to the matching primitive JNI call variant;
  * `callStaticMethod<ReturnType, ArgumentTypes...>(className, methodName,
    arguments...)`, which builds the method signature string, resolves the
    class, resolves the static method, invokes the selected variant and
    casts the result to `ToJavaType<ReturnType>::Type`, reporting failures
    through `reportInternalError` and returning a default-constructed value;
  * a two-template-parameter overload that forwards
    `JavaClassType::className()` into the primary overload.

The embedding below models the JNI environment as an oracle (a record of
response functions) and makes every JNI interaction observable in a trace,
so that dispatch, short-circuiting and single-attempt properties become
statements about that trace.
-/

namespace jh

/-- Native/interop type kinds relevant to the template dispatch of
`StaticCaller`: the JNI primitive kinds, plain object references, and
user-declared custom Java class tag types (identified by their class path). -/
inductive CppType where
  | void
  | jboolean
  | jbyte
  | jchar
  | jshort
  | jint
  | jlong
  | jfloat
  | jdouble
  | jobject
  | custom (name : String)
  deriving DecidableEq, Repr

/-- Runtime values crossing the native/Java boundary. Object references are
modelled as optional handles (`none` is the null reference); floating point
values are modelled as rationals. -/
inductive JValue where
  | vVoid
  | vBool (b : Bool)
  | vByte (n : Int)
  | vChar (n : Nat)
  | vShort (n : Int)
  | vInt (n : Int)
  | vLong (n : Int)
  | vFloat (q : Rat)
  | vDouble (q : Rat)
  | vObject (ref : Option Nat)
  deriving DecidableEq, Repr

/-- The type kind a runtime value belongs to. -/
def JValue.kind : JValue → CppType
  | .vVoid => .void
  | .vBool _ => .jboolean
  | .vByte _ => .jbyte
  | .vChar _ => .jchar
  | .vShort _ => .jshort
  | .vInt _ => .jint
  | .vLong _ => .jlong
  | .vFloat _ => .jfloat
  | .vDouble _ => .jdouble
  | .vObject _ => .jobject

/-- The fixed set of underlying JNI static-call entry points the header can
invoke: `CallStaticVoidMethod`, `CallStaticBooleanMethod`,
`CallStaticIntMethod`, `CallStaticLongMethod`, `CallStaticFloatMethod`,
`CallStaticDoubleMethod` and `CallStaticObjectMethod`. -/
inductive CallVariant where
  | voidV
  | booleanV
  | intV
  | longV
  | floatV
  | doubleV
  | objectV
  deriving DecidableEq, Repr

/-- The C++ return type each `StaticCaller` variant declares: the matching
primitive for the six specializations, and `jobject` for the primary
template (StaticCaller.hpp lines 25-86). -/
def CallVariant.returnTypeOf : CallVariant → CppType
  | .voidV => .void
  | .booleanV => .jboolean
  | .intV => .jint
  | .longV => .jlong
  | .floatV => .jfloat
  | .doubleV => .jdouble
  | .objectV => .jobject

/-- Whether a type has a dedicated `StaticCaller` specialization
(StaticCaller.hpp lines 34-86): exactly void, jboolean, jint, jlong,
jfloat and jdouble do; everything else is handled by the primary template. -/
def hasSpecialization : CppType → Bool
  | .void => true
  | .jboolean => true
  | .jint => true
  | .jlong => true
  | .jfloat => true
  | .jdouble => true
  | _ => false

/-- C++ template specialization selection for `StaticCaller<t, ...>`: the
six explicit specializations match exactly their type; any other type
selects the primary template, which forwards to `CallStaticObjectMethod`
(StaticCaller.hpp lines 25-32). -/
def selectVariant : CppType → CallVariant
  | .void => .voidV
  | .jboolean => .booleanV
  | .jint => .intV
  | .jlong => .longV
  | .jfloat => .floatV
  | .jdouble => .doubleV
  | _ => .objectV

/-- Modelled from the spec: the external type-mapping table `ToJavaType`
(core/ToJavaType.hpp, not under src/). `javaType` stands for
`ToJavaType<T>::Type`, the interop value type the wrapper returns. The spec
fixes the enumeration of kinds the binding understands (void, boolean,
integer, long, float, double, object): interop primitive kinds map to
themselves and custom class tag types map to plain object references. -/
def ToJavaType.javaType : CppType → CppType
  | .custom _ => .jobject
  | t => t

/-- Modelled from the spec: `ToJavaType<T>::CallReturnType`, the type on
which `StaticCaller` is instantiated at the call site (StaticCaller.hpp
line 135). Interop primitive kinds map to themselves and custom class tag
types map to plain object references. -/
def ToJavaType.callReturnType : CppType → CppType
  | .custom _ => .jobject
  | t => t

/-- Modelled from the spec: the external signature builder
`getJavaMethodSignature` (core/JavaMethodSignature.hpp, not under src/):
the textual encoding of one type in the foreign runtime's own grammar. -/
def typeDescriptor : CppType → String
  | .void => "V"
  | .jboolean => "Z"
  | .jbyte => "B"
  | .jchar => "C"
  | .jshort => "S"
  | .jint => "I"
  | .jlong => "J"
  | .jfloat => "F"
  | .jdouble => "D"
  | .jobject => "Ljava/lang/Object;"
  | .custom n => "L" ++ n ++ ";"

/-- Modelled from the spec: the external signature builder
`getJavaMethodSignature<ReturnType, ArgumentTypes...>()` — a textual
encoding of the method's argument and return types in the foreign
runtime's grammar, computed solely from the declared template types. -/
def getJavaMethodSignature (returnType : CppType) (argumentTypes : List CppType) : String :=
  "(" ++ String.join (argumentTypes.map typeDescriptor) ++ ")" ++ typeDescriptor returnType

/-- Default-constructed interop value, `RealReturnType()` in the source:
null for object references, zero for every primitive kind. -/
def defaultValue : CppType → JValue
  | .void => .vVoid
  | .jboolean => .vBool false
  | .jbyte => .vByte 0
  | .jchar => .vChar 0
  | .jshort => .vShort 0
  | .jint => .vInt 0
  | .jlong => .vLong 0
  | .jfloat => .vFloat 0
  | .jdouble => .vDouble 0
  | .jobject => .vObject none
  | .custom _ => .vObject none

/-- Numeric reading of a value, when it has one (C++ arithmetic conversion
source). Object references have none. -/
def JValue.numericVal : JValue → Option Rat
  | .vBool b => some (if b then 1 else 0)
  | .vByte n => some (n : Rat)
  | .vShort n => some (n : Rat)
  | .vInt n => some (n : Rat)
  | .vLong n => some (n : Rat)
  | .vChar n => some (n : Rat)
  | .vFloat q => some q
  | .vDouble q => some q
  | _ => none

/-- Truncation of a rational toward zero, as C++ float-to-integer
conversion does. -/
def truncRat (q : Rat) : Int :=
  q.num / (q.den : Int)

/-- Two's-complement wrap of an integer into a signed width. -/
def wrapS (bits : Nat) (n : Int) : Int :=
  (n + 2 ^ (bits - 1)) % (2 ^ bits) - 2 ^ (bits - 1)

/-- Whether a type kind is a C++ arithmetic kind. -/
def isNumericKind : CppType → Bool
  | .jboolean => true
  | .jbyte => true
  | .jchar => true
  | .jshort => true
  | .jint => true
  | .jlong => true
  | .jfloat => true
  | .jdouble => true
  | _ => false

/-- Whether a type kind is an object-reference kind. -/
def isObjectKind : CppType → Bool
  | .jobject => true
  | .custom _ => true
  | _ => false

/-- Whether `static_cast<target>(v)` is well formed in C++ for a value of
kind `source`: casts to void, arithmetic-to-arithmetic conversions and
object-pointer casts are; mixing object references with arithmetic kinds
is not. -/
def castWellFormed (target source : CppType) : Bool :=
  target = CppType.void
    || (isNumericKind target && isNumericKind source)
    || (isObjectKind target && isObjectKind source)

/-- The `static_cast<RealReturnType>(...)` of StaticCaller.hpp line 135. A
cast to the value's own kind is the identity; casts to void discard the
value; arithmetic conversions truncate and wrap; object-pointer casts keep
the reference. A cast that is not well formed in C++ (and so could never
compile) is modelled as the default value of the target kind. -/
def staticCast (target : CppType) (v : JValue) : JValue :=
  if v.kind = target then v
  else
    match target, v.numericVal with
    | .void, _ => .vVoid
    | .jboolean, some q => .vBool (decide (q ≠ 0))
    | .jbyte, some q => .vByte (wrapS 8 (truncRat q))
    | .jchar, some q => .vChar (((truncRat q) % (2 ^ 16)).toNat)
    | .jshort, some q => .vShort (wrapS 16 (truncRat q))
    | .jint, some q => .vInt (wrapS 32 (truncRat q))
    | .jlong, some q => .vLong (wrapS 64 (truncRat q))
    | .jfloat, some q => .vFloat q
    | .jdouble, some q => .vDouble q
    | .custom _, _ => if isObjectKind v.kind then v else defaultValue target
    | t, _ => defaultValue t

/-- One observable interaction with the JNI environment during a call. -/
inductive JNIOp where
  | findClassOp (name : String)
  | getStaticMethodIDOp (cls : Nat) (name : String) (sig : String)
  | callStaticOp (variant : CallVariant) (cls : Nat) (method : Nat) (args : List JValue)
  deriving DecidableEq, Repr

/-- Whether a trace entry is an underlying Java call. -/
def JNIOp.isCall : JNIOp → Bool
  | .callStaticOp _ _ _ _ => true
  | _ => false

/-- Whether a trace entry is a class resolution. -/
def JNIOp.isFindClass : JNIOp → Bool
  | .findClassOp _ => true
  | _ => false

/-- Whether a trace entry is a static method resolution. -/
def JNIOp.isMethodLookup : JNIOp → Bool
  | .getStaticMethodIDOp _ _ _ => true
  | _ => false

/-- The foreign runtime, as an oracle of responses: `FindClass` may return
a class handle, `GetStaticMethodID` may return a method handle for a class
handle, method name and signature string, and each underlying call variant
produces a value. The wrapper introduces no state of its own, so a whole
`JNIEnv` record describes everything a call can observe. -/
structure JNIEnv where
  findClass : String → Option Nat
  getStaticMethodID : Nat → String → String → Option Nat
  callStatic : CallVariant → Nat → Nat → List JValue → JValue

/-- Outcome of one `callStaticMethod` invocation: the returned value, the
ordered trace of JNI interactions performed, and the diagnostics surfaced
through the external error reporter (`reportInternalError`, modelled from
the spec as an external diagnostic channel that records each message). -/
structure CallResult where
  ret : JValue
  trace : List JNIOp
  errors : List String
  deriving DecidableEq, Repr

/-- Shallow embedding of `jh::callStaticMethod<ReturnType, ArgumentTypes...>
(className, methodName, arguments...)` (StaticCaller.hpp lines 114-136):
compute the signature string from the declared types, resolve the class by
name (on failure report `class not found [name]` and return a
default-constructed result), resolve the static method by name and
signature (on failure report the method, class and attempted signature and
return a default-constructed result), then invoke the `StaticCaller`
variant selected by `ToJavaType<ReturnType>::CallReturnType` and cast its
result to `ToJavaType<ReturnType>::Type`. -/
def callStaticMethod (env : JNIEnv) (returnType : CppType) (argumentTypes : List CppType)
    (className : String) (methodName : String) (arguments : List JValue) : CallResult :=
  let realReturnType := ToJavaType.javaType returnType
  let methodSignature := getJavaMethodSignature returnType argumentTypes
  match env.findClass className with
  | none =>
      { ret := defaultValue realReturnType
        trace := [JNIOp.findClassOp className]
        errors := ["class not found [" ++ className ++ "]"] }
  | some javaClass =>
      match env.getStaticMethodID javaClass methodName methodSignature with
      | none =>
          { ret := defaultValue realReturnType
            trace := [JNIOp.findClassOp className,
                      JNIOp.getStaticMethodIDOp javaClass methodName methodSignature]
            errors := ["method [" ++ methodName ++ "] for class [" ++ className
                        ++ "] not found, tried signature [" ++ methodSignature ++ "]"] }
      | some javaMethod =>
          let variant := selectVariant (ToJavaType.callReturnType returnType)
          { ret := staticCast realReturnType
                     (env.callStatic variant javaClass javaMethod arguments)
            trace := [JNIOp.findClassOp className,
                      JNIOp.getStaticMethodIDOp javaClass methodName methodSignature,
                      JNIOp.callStaticOp variant javaClass javaMethod arguments]
            errors := [] }

/-- A Java class tag type, as produced by `JH_JAVA_CUSTOM_CLASS`: it
carries the class path returned by its static `className()`. -/
structure JavaClassType where
  className : String

/-- Shallow embedding of the two-template-parameter overload
`jh::callStaticMethod<JavaClassType, ReturnType, ArgumentTypes...>
(methodName, arguments...)` (StaticCaller.hpp lines 138-142): it forwards
`JavaClassType::className()` as the class name into the primary overload. -/
def callStaticMethodByClass (env : JNIEnv) (javaClassType : JavaClassType)
    (returnType : CppType) (argumentTypes : List CppType)
    (methodName : String) (arguments : List JValue) : CallResult :=
  callStaticMethod env returnType argumentTypes
    javaClassType.className methodName arguments

/-- One request against the wrapper, for reasoning about sequences of
independent invocations. -/
structure Request where
  returnType : CppType
  argumentTypes : List CppType
  className : String
  methodName : String
  arguments : List JValue

/-- A sequence of `callStaticMethod` invocations against the same foreign
runtime, performed one after the other. -/
def runCalls (env : JNIEnv) (reqs : List Request) : List CallResult :=
  reqs.map (fun r =>
    callStaticMethod env r.returnType r.argumentTypes r.className r.methodName r.arguments)

/-- A concrete foreign runtime used to exercise the embedding: it knows one
class `com/example/Foo` (handle 7) with a static `int bar(int)` (handle 3)
and a static `byte mk()` (handle 4). -/
def envStd : JNIEnv where
  findClass := fun n => if n = "com/example/Foo" then some 7 else none
  getStaticMethodID := fun c m s =>
    if c = 7 && m = "bar" && s = "(I)I" then some 3
    else if c = 7 && m = "mk" && s = "()B" then some 4
    else none
  callStatic := fun v _ _ _ =>
    match v with
    | .intV => .vInt 42
    | .objectV => .vObject (some 9)
    | _ => .vVoid

end jh

namespace jh

/-- Outcome of a call when class resolution fails (StaticCaller.hpp lines
123-127): its full shape. -/
theorem callStaticMethod_classFail (env : JNIEnv) (returnType : CppType)
    (argumentTypes : List CppType) (className methodName : String) (arguments : List JValue)
    (h : env.findClass className = none) :
    callStaticMethod env returnType argumentTypes className methodName arguments =
      { ret := defaultValue (ToJavaType.javaType returnType)
        trace := [JNIOp.findClassOp className]
        errors := ["class not found [" ++ className ++ "]"] } := by
  simp [callStaticMethod, h]

/-- Outcome of a call when the class resolves but method resolution fails
(StaticCaller.hpp lines 129-133): its full shape. -/
theorem callStaticMethod_methodFail (env : JNIEnv) (returnType : CppType)
    (argumentTypes : List CppType) (className methodName : String) (arguments : List JValue)
    (cls : Nat) (hc : env.findClass className = some cls)
    (hm : env.getStaticMethodID cls methodName
      (getJavaMethodSignature returnType argumentTypes) = none) :
    callStaticMethod env returnType argumentTypes className methodName arguments =
      { ret := defaultValue (ToJavaType.javaType returnType)
        trace := [JNIOp.findClassOp className,
                  JNIOp.getStaticMethodIDOp cls methodName
                    (getJavaMethodSignature returnType argumentTypes)]
        errors := ["method [" ++ methodName ++ "] for class [" ++ className
                    ++ "] not found, tried signature ["
                    ++ getJavaMethodSignature returnType argumentTypes ++ "]"] } := by
  simp [callStaticMethod, hc, hm]

/-- Outcome of a call when both resolutions succeed (StaticCaller.hpp line
135): its full shape. -/
theorem callStaticMethod_success (env : JNIEnv) (returnType : CppType)
    (argumentTypes : List CppType) (className methodName : String) (arguments : List JValue)
    (cls mid : Nat) (hc : env.findClass className = some cls)
    (hm : env.getStaticMethodID cls methodName
      (getJavaMethodSignature returnType argumentTypes) = some mid) :
    callStaticMethod env returnType argumentTypes className methodName arguments =
      { ret := staticCast (ToJavaType.javaType returnType)
                 (env.callStatic (selectVariant (ToJavaType.callReturnType returnType))
                   cls mid arguments)
        trace := [JNIOp.findClassOp className,
                  JNIOp.getStaticMethodIDOp cls methodName
                    (getJavaMethodSignature returnType argumentTypes),
                  JNIOp.callStaticOp (selectVariant (ToJavaType.callReturnType returnType))
                    cls mid arguments]
        errors := [] } := by
  simp [callStaticMethod, hc, hm]

/-- A static cast to the value's own kind is the identity. -/
theorem staticCast_of_kind_eq (t : CppType) (v : JValue) (h : v.kind = t) :
    staticCast t v = v := by
  simp [staticCast, h]

/-- When the instantiation is well formed (the `static_cast` of line 135
compiles), the wrapper's return type coincides with the C++ return type of
the selected `StaticCaller` variant. -/
theorem javaType_eq_of_wf (returnType : CppType)
    (h : castWellFormed (ToJavaType.javaType returnType)
      ((selectVariant (ToJavaType.callReturnType returnType)).returnTypeOf) = true) :
    ToJavaType.javaType returnType
      = (selectVariant (ToJavaType.callReturnType returnType)).returnTypeOf := by
  cases returnType <;> simp_all [ToJavaType.javaType, ToJavaType.callReturnType,
    selectVariant, CallVariant.returnTypeOf, castWellFormed, isNumericKind, isObjectKind]

/-- A type with no dedicated `StaticCaller` specialization selects the
primary template, i.e. the object variant. -/
theorem selectVariant_of_no_spec (t : CppType) (h : hasSpecialization t = false) :
    selectVariant t = CallVariant.objectV := by
  cases t <;> simp_all [hasSpecialization, selectVariant]

end jh

namespace jh

/-- Claim C1: the declared return type selects, at compile time, exactly one
underlying call variant from the fixed set (void, boolean, int, long, float,
double to their matching `CallStatic...Method`, everything else to
`CallStaticObjectMethod`), and on the success path that variant — and no
other — is invoked with the resolved class, method, and forwarded arguments. -/
theorem C1_dispatch_fixed_set (env : JNIEnv) (returnType : CppType)
    (argumentTypes : List CppType) (className methodName : String)
    (arguments : List JValue) (cls mid : Nat)
    (hc : env.findClass className = some cls)
    (hm : env.getStaticMethodID cls methodName
      (getJavaMethodSignature returnType argumentTypes) = some mid) :
    (selectVariant CppType.void = CallVariant.voidV
      ∧ selectVariant CppType.jboolean = CallVariant.booleanV
      ∧ selectVariant CppType.jint = CallVariant.intV
      ∧ selectVariant CppType.jlong = CallVariant.longV
      ∧ selectVariant CppType.jfloat = CallVariant.floatV
      ∧ selectVariant CppType.jdouble = CallVariant.doubleV
      ∧ ∀ t, hasSpecialization t = false → selectVariant t = CallVariant.objectV)
    ∧ (callStaticMethod env returnType argumentTypes className methodName
        arguments).trace.filter JNIOp.isCall
      = [JNIOp.callStaticOp (selectVariant (ToJavaType.callReturnType returnType))
          cls mid arguments] := by
  refine ⟨⟨rfl, rfl, rfl, rfl, rfl, rfl, fun t ht => selectVariant_of_no_spec t ht⟩, ?_⟩
  rw [callStaticMethod_success env returnType argumentTypes className methodName
    arguments cls mid hc hm]
  simp [JNIOp.isCall]

/-- Witness for C1 on a concrete runtime and call. -/
theorem C1_dispatch_fixed_set_witness :
    (callStaticMethod envStd CppType.jint [CppType.jint] "com/example/Foo" "bar"
        [JValue.vInt 5]).trace.filter JNIOp.isCall
      = [JNIOp.callStaticOp (selectVariant (ToJavaType.callReturnType CppType.jint))
          7 3 [JValue.vInt 5]] :=
  (C1_dispatch_fixed_set envStd CppType.jint [CppType.jint] "com/example/Foo" "bar"
    [JValue.vInt 5] 7 3 (by decide) (by decide)).2

/-- Claim C2: the failure conditions are exactly two — class resolution
fails, or method resolution with the computed signature fails — each
reporting a diagnostic and returning a default-constructed result; in every
other case the selected variant's result is returned (cast to the wrapper's
return type). -/
theorem C2_two_failure_conditions (env : JNIEnv) (returnType : CppType)
    (argumentTypes : List CppType) (className methodName : String)
    (arguments : List JValue) :
    (env.findClass className = none →
      (callStaticMethod env returnType argumentTypes className methodName arguments).errors
        = ["class not found [" ++ className ++ "]"]
      ∧ (callStaticMethod env returnType argumentTypes className methodName arguments).ret
        = defaultValue (ToJavaType.javaType returnType))
    ∧ (∀ cls, env.findClass className = some cls →
        env.getStaticMethodID cls methodName
          (getJavaMethodSignature returnType argumentTypes) = none →
        (callStaticMethod env returnType argumentTypes className methodName arguments).errors
          = ["method [" ++ methodName ++ "] for class [" ++ className
              ++ "] not found, tried signature ["
              ++ getJavaMethodSignature returnType argumentTypes ++ "]"]
        ∧ (callStaticMethod env returnType argumentTypes className methodName arguments).ret
          = defaultValue (ToJavaType.javaType returnType))
    ∧ (∀ cls mid, env.findClass className = some cls →
        env.getStaticMethodID cls methodName
          (getJavaMethodSignature returnType argumentTypes) = some mid →
        (callStaticMethod env returnType argumentTypes className methodName arguments).errors
          = []
        ∧ (callStaticMethod env returnType argumentTypes className methodName arguments).ret
          = staticCast (ToJavaType.javaType returnType)
              (env.callStatic (selectVariant (ToJavaType.callReturnType returnType))
                cls mid arguments)) := by
  refine ⟨fun h => ?_, fun cls hc hm => ?_, fun cls mid hc hm => ?_⟩
  · rw [callStaticMethod_classFail env returnType argumentTypes className methodName
      arguments h]
    exact ⟨rfl, rfl⟩
  · rw [callStaticMethod_methodFail env returnType argumentTypes className methodName
      arguments cls hc hm]
    exact ⟨rfl, rfl⟩
  · rw [callStaticMethod_success env returnType argumentTypes className methodName
      arguments cls mid hc hm]
    exact ⟨rfl, rfl⟩

/-- Witness for C2 on a concrete runtime: an unknown class produces the
diagnostic and the default result. -/
theorem C2_two_failure_conditions_witness :
    (callStaticMethod envStd CppType.jint [] "com/nope" "bar" []).errors
      = ["class not found [com/nope]"]
    ∧ (callStaticMethod envStd CppType.jint [] "com/nope" "bar" []).ret
      = defaultValue (ToJavaType.javaType CppType.jint) :=
  (C2_two_failure_conditions envStd CppType.jint [] "com/nope" "bar" []).1 (by decide)

/-- Claim C3: when class resolution fails the call short-circuits — no
method lookup and no Java call are performed, the diagnostic names the
class, and the default result is returned; when method lookup fails, the
Java call is never performed. -/
theorem C3_short_circuit (env : JNIEnv) (returnType : CppType)
    (argumentTypes : List CppType) (className methodName : String)
    (arguments : List JValue) :
    (env.findClass className = none →
      (callStaticMethod env returnType argumentTypes className methodName arguments).trace
        = [JNIOp.findClassOp className]
      ∧ (callStaticMethod env returnType argumentTypes className methodName
          arguments).trace.filter JNIOp.isMethodLookup = []
      ∧ (callStaticMethod env returnType argumentTypes className methodName
          arguments).trace.filter JNIOp.isCall = []
      ∧ (callStaticMethod env returnType argumentTypes className methodName arguments).errors
        = ["class not found [" ++ className ++ "]"]
      ∧ (callStaticMethod env returnType argumentTypes className methodName arguments).ret
        = defaultValue (ToJavaType.javaType returnType))
    ∧ (∀ cls, env.findClass className = some cls →
        env.getStaticMethodID cls methodName
          (getJavaMethodSignature returnType argumentTypes) = none →
        (callStaticMethod env returnType argumentTypes className methodName
          arguments).trace.filter JNIOp.isCall = []) := by
  constructor
  · intro h
    rw [callStaticMethod_classFail env returnType argumentTypes className methodName
      arguments h]
    refine ⟨rfl, ?_, ?_, rfl, rfl⟩ <;> simp [JNIOp.isMethodLookup, JNIOp.isCall]
  · intro cls hc hm
    rw [callStaticMethod_methodFail env returnType argumentTypes className methodName
      arguments cls hc hm]
    simp [JNIOp.isCall]

/-- Witness for C3 on a concrete runtime with an unknown class. -/
theorem C3_short_circuit_witness :
    (callStaticMethod envStd CppType.void [] "com/nope" "go" []).trace
      = [JNIOp.findClassOp "com/nope"]
    ∧ (callStaticMethod envStd CppType.void [] "com/nope" "go" []).trace.filter
        JNIOp.isMethodLookup = []
    ∧ (callStaticMethod envStd CppType.void [] "com/nope" "go" []).trace.filter
        JNIOp.isCall = []
    ∧ (callStaticMethod envStd CppType.void [] "com/nope" "go" []).errors
      = ["class not found [com/nope]"]
    ∧ (callStaticMethod envStd CppType.void [] "com/nope" "go" []).ret
      = defaultValue (ToJavaType.javaType CppType.void) :=
  (C3_short_circuit envStd CppType.void [] "com/nope" "go" []).1 (by decide)

/-- Claim C4: every call performs exactly these steps in order — build the
signature from the declared types, resolve the class by name, resolve the
static method by name and signature, forward the arguments to the selected
variant, cast the result — each later step only when the earlier ones
succeed, and nothing else. -/
theorem C4_step_sequence (env : JNIEnv) (returnType : CppType)
    (argumentTypes : List CppType) (className methodName : String)
    (arguments : List JValue) :
    (env.findClass className = none
      ∧ (callStaticMethod env returnType argumentTypes className methodName arguments).trace
        = [JNIOp.findClassOp className])
    ∨ (∃ cls, env.findClass className = some cls
        ∧ env.getStaticMethodID cls methodName
            (getJavaMethodSignature returnType argumentTypes) = none
        ∧ (callStaticMethod env returnType argumentTypes className methodName arguments).trace
          = [JNIOp.findClassOp className,
             JNIOp.getStaticMethodIDOp cls methodName
               (getJavaMethodSignature returnType argumentTypes)])
    ∨ (∃ cls mid, env.findClass className = some cls
        ∧ env.getStaticMethodID cls methodName
            (getJavaMethodSignature returnType argumentTypes) = some mid
        ∧ (callStaticMethod env returnType argumentTypes className methodName arguments).trace
          = [JNIOp.findClassOp className,
             JNIOp.getStaticMethodIDOp cls methodName
               (getJavaMethodSignature returnType argumentTypes),
             JNIOp.callStaticOp (selectVariant (ToJavaType.callReturnType returnType))
               cls mid arguments]
        ∧ (callStaticMethod env returnType argumentTypes className methodName arguments).ret
          = staticCast (ToJavaType.javaType returnType)
              (env.callStatic (selectVariant (ToJavaType.callReturnType returnType))
                cls mid arguments)) := by
  cases hc : env.findClass className with
  | none =>
      exact Or.inl ⟨rfl, by
        rw [callStaticMethod_classFail env returnType argumentTypes className methodName
          arguments hc]⟩
  | some cls =>
      cases hm : env.getStaticMethodID cls methodName
          (getJavaMethodSignature returnType argumentTypes) with
      | none =>
          refine Or.inr (Or.inl ⟨cls, rfl, ?_, ?_⟩)
          · rw [hm]
          · rw [callStaticMethod_methodFail env returnType argumentTypes className methodName
              arguments cls hc hm]
      | some mid =>
          refine Or.inr (Or.inr ⟨cls, mid, rfl, ?_, ?_, ?_⟩)
          · rw [hm]
          · rw [callStaticMethod_success env returnType argumentTypes className methodName
              arguments cls mid hc hm]
          · rw [callStaticMethod_success env returnType argumentTypes className methodName
              arguments cls mid hc hm]

end jh

namespace jh

/-- Claim C5: when class and method resolve, the selected variant's result
is converted losslessly into the caller's expected native type — for a
well-typed runtime response and a well-formed instantiation the
`static_cast` of line 135 preserves the value exactly. -/
theorem C5_lossless_conversion (env : JNIEnv) (returnType : CppType)
    (argumentTypes : List CppType) (className methodName : String)
    (arguments : List JValue) (cls mid : Nat)
    (hc : env.findClass className = some cls)
    (hm : env.getStaticMethodID cls methodName
      (getJavaMethodSignature returnType argumentTypes) = some mid)
    (hk : (env.callStatic (selectVariant (ToJavaType.callReturnType returnType))
        cls mid arguments).kind
      = (selectVariant (ToJavaType.callReturnType returnType)).returnTypeOf)
    (hwf : castWellFormed (ToJavaType.javaType returnType)
      ((selectVariant (ToJavaType.callReturnType returnType)).returnTypeOf) = true) :
    (callStaticMethod env returnType argumentTypes className methodName arguments).ret
      = env.callStatic (selectVariant (ToJavaType.callReturnType returnType))
          cls mid arguments := by
  rw [callStaticMethod_success env returnType argumentTypes className methodName
    arguments cls mid hc hm]
  exact staticCast_of_kind_eq _ _ (by rw [hk, javaType_eq_of_wf returnType hwf])

/-- Witness for C5 on a concrete runtime: the int variant's value 42 is
returned unchanged. -/
theorem C5_lossless_conversion_witness :
    (callStaticMethod envStd CppType.jint [CppType.jint] "com/example/Foo" "bar"
        [JValue.vInt 5]).ret
      = envStd.callStatic (selectVariant (ToJavaType.callReturnType CppType.jint))
          7 3 [JValue.vInt 5] :=
  C5_lossless_conversion envStd CppType.jint [CppType.jint] "com/example/Foo" "bar"
    [JValue.vInt 5] 7 3 (by decide) (by decide) (by decide) (by decide)

/-- Claim C6: no retries — every call performs at most one class
resolution, at most one method resolution and at most one underlying Java
call, whatever the outcomes. -/
theorem C6_single_attempt (env : JNIEnv) (returnType : CppType)
    (argumentTypes : List CppType) (className methodName : String)
    (arguments : List JValue) :
    (callStaticMethod env returnType argumentTypes className methodName
        arguments).trace.countP JNIOp.isFindClass ≤ 1
    ∧ (callStaticMethod env returnType argumentTypes className methodName
        arguments).trace.countP JNIOp.isMethodLookup ≤ 1
    ∧ (callStaticMethod env returnType argumentTypes className methodName
        arguments).trace.countP JNIOp.isCall ≤ 1 := by
  cases hc : env.findClass className with
  | none =>
      rw [callStaticMethod_classFail env returnType argumentTypes className methodName
        arguments hc]
      refine ⟨?_, ?_, ?_⟩ <;>
        simp [List.countP_cons, JNIOp.isFindClass, JNIOp.isMethodLookup, JNIOp.isCall]
  | some cls =>
      cases hm : env.getStaticMethodID cls methodName
          (getJavaMethodSignature returnType argumentTypes) with
      | none =>
          rw [callStaticMethod_methodFail env returnType argumentTypes className methodName
            arguments cls hc hm]
          refine ⟨?_, ?_, ?_⟩ <;>
            simp [List.countP_cons, JNIOp.isFindClass, JNIOp.isMethodLookup, JNIOp.isCall]
      | some mid =>
          rw [callStaticMethod_success env returnType argumentTypes className methodName
            arguments cls mid hc hm]
          refine ⟨?_, ?_, ?_⟩ <;>
            simp [List.countP_cons, JNIOp.isFindClass, JNIOp.isMethodLookup, JNIOp.isCall]

/-- Claim C7: no state is retained across calls — within any sequence of
invocations against the same runtime, each call's outcome is exactly that
of the same call made in isolation (nothing is cached or reused from
earlier calls), and every call obtains its class handle fresh: its very
first interaction is the class resolution for its own class name. -/
theorem C7_stateless (env : JNIEnv) (reqsBefore reqsAfter : List Request) (r : Request)
    (returnType : CppType) (argumentTypes : List CppType)
    (className methodName : String) (arguments : List JValue) :
    (runCalls env (reqsBefore ++ r :: reqsAfter))[reqsBefore.length]?
      = some (callStaticMethod env r.returnType r.argumentTypes r.className
          r.methodName r.arguments)
    ∧ (callStaticMethod env returnType argumentTypes className methodName
        arguments).trace.head?
      = some (JNIOp.findClassOp className) := by
  constructor
  · induction reqsBefore with
    | nil => simp [runCalls]
    | cons a l ih => simpa [runCalls] using ih
  · cases hc : env.findClass className with
    | none =>
        rw [callStaticMethod_classFail env returnType argumentTypes className methodName
          arguments hc]
        rfl
    | some cls =>
        cases hm : env.getStaticMethodID cls methodName
            (getJavaMethodSignature returnType argumentTypes) with
        | none =>
            rw [callStaticMethod_methodFail env returnType argumentTypes className
              methodName arguments cls hc hm]
            rfl
        | some mid =>
            rw [callStaticMethod_success env returnType argumentTypes className
              methodName arguments cls mid hc hm]
            rfl

/-- Claim C8: when method resolution fails, the signature string passed to
the lookup is computed solely from the declared return and argument types,
before the lookup, and the diagnostic carries the method name, the class
name and that exact signature. -/
theorem C8_signature_in_diagnostic (env : JNIEnv) (returnType : CppType)
    (argumentTypes : List CppType) (className methodName : String)
    (arguments : List JValue) (cls : Nat)
    (hc : env.findClass className = some cls)
    (hm : env.getStaticMethodID cls methodName
      (getJavaMethodSignature returnType argumentTypes) = none) :
    (callStaticMethod env returnType argumentTypes className methodName arguments).trace
      = [JNIOp.findClassOp className,
         JNIOp.getStaticMethodIDOp cls methodName
           (getJavaMethodSignature returnType argumentTypes)]
    ∧ (callStaticMethod env returnType argumentTypes className methodName arguments).errors
      = ["method [" ++ methodName ++ "] for class [" ++ className
          ++ "] not found, tried signature ["
          ++ getJavaMethodSignature returnType argumentTypes ++ "]"] := by
  rw [callStaticMethod_methodFail env returnType argumentTypes className methodName
    arguments cls hc hm]
  exact ⟨rfl, rfl⟩

/-- Witness for C8 on a concrete runtime: looking up an unknown method
`baz` with signature (I)I surfaces the full diagnostic. -/
theorem C8_signature_in_diagnostic_witness :
    (callStaticMethod envStd CppType.jint [CppType.jint] "com/example/Foo" "baz"
        [JValue.vInt 5]).trace
      = [JNIOp.findClassOp "com/example/Foo",
         JNIOp.getStaticMethodIDOp 7 "baz"
           (getJavaMethodSignature CppType.jint [CppType.jint])]
    ∧ (callStaticMethod envStd CppType.jint [CppType.jint] "com/example/Foo" "baz"
        [JValue.vInt 5]).errors
      = ["method [baz] for class [com/example/Foo] not found, tried signature ["
          ++ getJavaMethodSignature CppType.jint [CppType.jint] ++ "]"] :=
  C8_signature_in_diagnostic envStd CppType.jint [CppType.jint] "com/example/Foo" "baz"
    [JValue.vInt 5] 7 (by decide) (by decide)

/-- Claim C9: the two-template-parameter overload taking a Java class tag
type returns exactly the same result as the primary overload applied to
that tag's class name. -/
theorem C9_overload_equivalence (env : JNIEnv) (javaClassType : JavaClassType)
    (returnType : CppType) (argumentTypes : List CppType)
    (methodName : String) (arguments : List JValue) :
    callStaticMethodByClass env javaClassType returnType argumentTypes
        methodName arguments
      = callStaticMethod env returnType argumentTypes javaClassType.className
          methodName arguments := rfl

/-- Claim C10: a return type with no dedicated `StaticCaller`
specialization — the narrow primitives jbyte, jchar, jshort as well as any
custom class type — selects the primary template, so the call goes through
`CallStaticObjectMethod` (never a primitive variant) and its object result
is static-cast to the caller's expected type. -/
theorem C10_primary_template_object_call (env : JNIEnv) (returnType : CppType)
    (argumentTypes : List CppType) (className methodName : String)
    (arguments : List JValue) (cls mid : Nat)
    (hspec : hasSpecialization (ToJavaType.callReturnType returnType) = false)
    (hc : env.findClass className = some cls)
    (hm : env.getStaticMethodID cls methodName
      (getJavaMethodSignature returnType argumentTypes) = some mid) :
    (hasSpecialization CppType.jbyte = false
      ∧ hasSpecialization CppType.jchar = false
      ∧ hasSpecialization CppType.jshort = false
      ∧ ∀ n, hasSpecialization (ToJavaType.callReturnType (CppType.custom n)) = false)
    ∧ selectVariant (ToJavaType.callReturnType returnType) = CallVariant.objectV
    ∧ (callStaticMethod env returnType argumentTypes className methodName
        arguments).trace.filter JNIOp.isCall
      = [JNIOp.callStaticOp CallVariant.objectV cls mid arguments]
    ∧ (callStaticMethod env returnType argumentTypes className methodName arguments).ret
      = staticCast (ToJavaType.javaType returnType)
          (env.callStatic CallVariant.objectV cls mid arguments) := by
  have hv := selectVariant_of_no_spec _ hspec
  refine ⟨⟨rfl, rfl, rfl, fun n => rfl⟩, hv, ?_, ?_⟩ <;>
    rw [callStaticMethod_success env returnType argumentTypes className methodName
      arguments cls mid hc hm, hv]
  simp [JNIOp.isCall]

/-- Witness for C10 on a concrete runtime: a jbyte-returning call goes
through the object variant. -/
theorem C10_primary_template_object_call_witness :
    selectVariant (ToJavaType.callReturnType CppType.jbyte) = CallVariant.objectV
    ∧ (callStaticMethod envStd CppType.jbyte [] "com/example/Foo" "mk" []).trace.filter
        JNIOp.isCall
      = [JNIOp.callStaticOp CallVariant.objectV 7 4 []]
    ∧ (callStaticMethod envStd CppType.jbyte [] "com/example/Foo" "mk" []).ret
      = staticCast (ToJavaType.javaType CppType.jbyte)
          (envStd.callStatic CallVariant.objectV 7 4 []) :=
  (C10_primary_template_object_call envStd CppType.jbyte [] "com/example/Foo" "mk" []
    7 4 (by decide) (by decide) (by decide)).2

end jh
